import Mathlib

/-!
Shallow embedding of the search, recommendation, pagination and trending
logic of the brawlfind repository, together with proofs of its specified
properties.  JavaScript numbers that the code uses as scores are modelled
as rationals (and reals where a logarithm occurs); MongoDB ISO-8601
timestamp strings are modelled as strings compared lexicographically,
which is exactly how the store sorts and compares them.
-/

namespace Brawlfind

/-- A video creator, the nested creator object of a video document. -/
structure Creator where
  id : String
  name : String
deriving Repr, DecidableEq

/-- One video document of the VIDEOS collection, with the fields the
search, recommendation and trending pipelines read. -/
structure VideoRecord where
  youtubeId : String
  creator : Creator
  publishedAt : String
  duration : Nat
  viewCount : Nat
  brawlers : List String
  gameModes : List String
  contentType : List String
  skillLevel : String
  popularity : ℚ
  recency : ℚ
deriving Repr, DecidableEq

/-- Size of the set intersection of two string arrays, as computed by the
aggregation operator that intersects arrays as sets: the number of
distinct elements of the first array that also occur in the second. -/
def setInterSize (a b : List String) : Nat :=
  (a.dedup.filter (fun x => decide (x ∈ b))).length

/-- The similarityScore stage of getVideoRecommendations: 3 points per
matching brawler, 2 per matching game mode, 1 per matching content type,
plus a 4 point bonus when the creator id matches the source creator. -/
def similarityScoreBase (source cand : VideoRecord) : ℚ :=
  (setInterSize cand.brawlers source.brawlers) * 3
    + (setInterSize cand.gameModes source.gameModes) * 2
    + (setInterSize cand.contentType source.contentType) * 1
    + (if cand.creator.id = source.creator.id then 4 else 0)

/-- The preference-boost stage: when a preferred-brawlers list is supplied
and non-empty, 1 point per preferred brawler present on the candidate. -/
def preferenceBoost (cand : VideoRecord) (prefs : Option (List String)) : ℚ :=
  match prefs with
  | none => 0
  | some l => if l.length > 0 then (setInterSize cand.brawlers l) * 1 else 0

/-- similarityScore after the optional preference-boost stage. -/
def similarityScore (source cand : VideoRecord) (prefs : Option (List String)) : ℚ :=
  similarityScoreBase source cand + preferenceBoost cand prefs

lemma toFinset_of_filtered_dedup (a b : List String) :
    (a.dedup.filter (fun x => decide (x ∈ b))).toFinset = a.toFinset ∩ b.toFinset := by
  ext x
  simp [List.mem_filter, List.mem_dedup]

lemma setInterSize_eq_card_inter (a b : List String) :
    setInterSize a b = (a.toFinset ∩ b.toFinset).card := by
  have hnd : (a.dedup.filter (fun x => decide (x ∈ b))).Nodup :=
    a.nodup_dedup.filter _
  calc setInterSize a b
      = (a.dedup.filter (fun x => decide (x ∈ b))).toFinset.card :=
        (List.toFinset_card_of_nodup hnd).symm
    _ = (a.toFinset ∩ b.toFinset).card := by rw [toFinset_of_filtered_dedup]

/-- A concrete source record for the boundary case of the spec:
a single brawler, game mode and content type. -/
def mortisSource : VideoRecord :=
  { youtubeId := "srcVid", creator := { id := "creator1", name := "Pro" },
    publishedAt := "2025-01-01T00:00:00Z", duration := 300, viewCount := 1000,
    brawlers := ["Mortis"], gameModes := ["Brawl Ball"], contentType := ["tutorial"],
    skillLevel := "advanced", popularity := 0, recency := 0 }

/-- A candidate identical to the source in every classification field and
with the same creator, but with a different video id. -/
def mortisCand : VideoRecord :=
  { mortisSource with youtubeId := "candVid" }

lemma similarity_mortis_value : similarityScore mortisSource mortisCand none = 10 := by
  have h1 : setInterSize mortisCand.brawlers mortisSource.brawlers = 1 := by decide
  have h2 : setInterSize mortisCand.gameModes mortisSource.gameModes = 1 := by decide
  have h3 : setInterSize mortisCand.contentType mortisSource.contentType = 1 := by decide
  simp only [similarityScore, preferenceBoost, similarityScoreBase, add_zero]
  rw [h1, h2, h3, if_pos (show mortisCand.creator.id = mortisSource.creator.id from rfl)]
  norm_num

/-- C1: the recommendation scorer assigns
similarityScore = 3 times the size of the brawler-set intersection plus
2 times the game-mode intersection plus 1 times the content-type
intersection plus 4 exactly when the creator ids agree, and a supplied
non-empty preferred-brawlers set further adds 1 times the size of the
intersection of the candidate brawlers with the preferred set; a
candidate identical to the source in all three classification sets and
with the same creator, with one brawler, one mode and one type, scores
3 + 2 + 1 + 4 = 10. -/
theorem similarity_score_formula (source cand : VideoRecord) (prefs : List String) :
    (similarityScore source cand none =
      3 * ((cand.brawlers.toFinset ∩ source.brawlers.toFinset).card : ℚ)
        + 2 * ((cand.gameModes.toFinset ∩ source.gameModes.toFinset).card : ℚ)
        + 1 * ((cand.contentType.toFinset ∩ source.contentType.toFinset).card : ℚ)
        + (if cand.creator.id = source.creator.id then 4 else 0))
    ∧ (prefs ≠ [] →
        similarityScore source cand (some prefs) =
          similarityScore source cand none
            + ((cand.brawlers.toFinset ∩ prefs.toFinset).card : ℚ))
    ∧ similarityScore mortisSource mortisCand none = 10 := by
  refine ⟨?_, ?_, similarity_mortis_value⟩
  · simp only [similarityScore, preferenceBoost, similarityScoreBase, add_zero,
      setInterSize_eq_card_inter]
    ring
  · intro h
    simp only [similarityScore, preferenceBoost, similarityScoreBase, add_zero]
    rw [if_pos (List.length_pos.mpr h)]
    simp only [setInterSize_eq_card_inter]
    ring

/-- Witness for C1 at the concrete boundary-case records: the preferred
set consisting of the single brawler of the candidate is non-empty and
boosts the similarity score by the one-element intersection. -/
theorem similarity_score_formula_witness :
    (["Mortis"] ≠ ([] : List String))
    ∧ similarityScore mortisSource mortisCand (some ["Mortis"]) =
        similarityScore mortisSource mortisCand none
          + ((mortisCand.brawlers.toFinset ∩ (["Mortis"] : List String).toFinset).card : ℚ) :=
  ⟨by decide,
   (similarity_score_formula mortisSource mortisCand ["Mortis"]).2.1 (by decide)⟩

/-- A candidate annotated with the scores the recommendation pipeline
adds to each document. -/
structure ScoredVideo where
  video : VideoRecord
  similarityScore : ℚ
  finalScore : ℚ
deriving Repr, DecidableEq

/-- The finalScore stage: similarityScore plus 5 points weighted
popularity plus 3 points weighted recency. -/
def finalScoreOf (source cand : VideoRecord) (prefs : Option (List String)) : ℚ :=
  similarityScore source cand prefs + cand.popularity * 5 + cand.recency * 3

/-- The order of the recommendation sort stage: descending finalScore,
ties broken by descending publishedAt timestamp. -/
def recRel (a b : ScoredVideo) : Prop :=
  b.finalScore < a.finalScore
    ∨ (a.finalScore = b.finalScore ∧ b.video.publishedAt ≤ a.video.publishedAt)

instance : DecidableRel recRel := fun _ _ =>
  inferInstanceAs (Decidable (_ ∨ _))

instance : IsTrans ScoredVideo recRel where
  trans _a _b _c hab hbc := by
    rcases hab with h1 | ⟨h1, h1'⟩ <;> rcases hbc with h2 | ⟨h2, h2'⟩
    · exact Or.inl (lt_trans h2 h1)
    · exact Or.inl (h2 ▸ h1)
    · exact Or.inl (h1 ▸ h2)
    · exact Or.inr ⟨h1.trans h2, le_trans h2' h1'⟩

instance : IsTotal ScoredVideo recRel where
  total a b := by
    rcases lt_trichotomy a.finalScore b.finalScore with h | h | h
    · exact Or.inr (Or.inl h)
    · rcases le_total a.video.publishedAt b.video.publishedAt with h' | h'
      · exact Or.inr (Or.inr ⟨h.symm, h'⟩)
      · exact Or.inl (Or.inr ⟨h, h'⟩)
    · exact Or.inl (Or.inl h)

/-- findOne on the VIDEOS collection by youtubeId: the first record, if
any, whose youtubeId equals the requested id. -/
def getVideoByYoutubeId (store : List VideoRecord) (youtubeId : String) : Option VideoRecord :=
  store.find? (fun v => v.youtubeId == youtubeId)

/-- The recommendation pipeline of getVideoRecommendations: look up the
source video and fail when it is absent; otherwise score every other
video, sort by descending finalScore with descending publishedAt as a
tie break, and keep the first limit entries (default 6). -/
def getVideoRecommendations (store : List VideoRecord) (youtubeId : String)
    (limit : Nat := 6) (prefs : Option (List String) := none) :
    Except String (List ScoredVideo) :=
  match getVideoByYoutubeId store youtubeId with
  | none => Except.error ("Video " ++ youtubeId ++ " not found")
  | some source =>
      let candidates := store.filter (fun v => v.youtubeId != youtubeId)
      let scored := candidates.map (fun v =>
        { video := v,
          similarityScore := similarityScore source v prefs,
          finalScore := finalScoreOf source v prefs })
      Except.ok ((List.insertionSort recRel scored).take limit)

lemma mem_of_mem_take_insertionSort {α : Type} (r : α → α → Prop) [DecidableRel r]
    {l : List α} {n : ℕ} {x : α} (h : x ∈ (List.insertionSort r l).take n) : x ∈ l :=
  (List.perm_insertionSort r l).mem_iff.mp (List.mem_of_mem_take h)

/-- C2: every returned recommendation carries
finalScore = similarityScore + 5 times popularity + 3 times recency, the
returned list is sorted in descending finalScore order with ties broken
by descending publish timestamp, and it is truncated to the requested
limit (as many entries as there are candidates, capped at the limit). -/
theorem recommendations_ranked (store : List VideoRecord) (youtubeId : String)
    (limit : Nat) (prefs : Option (List String)) (l : List ScoredVideo)
    (h : getVideoRecommendations store youtubeId limit prefs = Except.ok l) :
    (∀ s ∈ l, s.finalScore =
        s.similarityScore + 5 * s.video.popularity + 3 * s.video.recency)
    ∧ l.Sorted recRel
    ∧ l.length = min limit (store.filter (fun v => v.youtubeId != youtubeId)).length := by
  unfold getVideoRecommendations at h
  cases hf : getVideoByYoutubeId store youtubeId with
  | none => rw [hf] at h; exact absurd h (by simp)
  | some source =>
      rw [hf] at h
      simp only [Except.ok.injEq] at h
      subst h
      refine ⟨?_, ?_, ?_⟩
      · intro s hs
        have hmem := mem_of_mem_take_insertionSort recRel hs
        rcases List.mem_map.mp hmem with ⟨v, _, rfl⟩
        simp only [finalScoreOf]
        ring
      · exact ((List.sorted_insertionSort recRel _).sublist (List.take_sublist _ _))
      · rw [List.length_take, (List.perm_insertionSort recRel _).length_eq,
          List.length_map]

/-- The list returned by the recommendation pipeline on the two-record
witness store. -/
def recWitnessList : List ScoredVideo :=
  [{ video := mortisCand, similarityScore := 10, finalScore := 10 }]

instance : DecidableEq (Except String (List ScoredVideo)) := fun a b =>
  match a, b with
  | .ok x, .ok y => decidable_of_iff (x = y) (by simp)
  | .error x, .error y => decidable_of_iff (x = y) (by simp)
  | .ok _, .error _ => isFalse (by simp)
  | .error _, .ok _ => isFalse (by simp)

lemma finalScore_mortis_value : finalScoreOf mortisSource mortisCand none = 10 := by
  rw [finalScoreOf, similarity_mortis_value]
  norm_num [mortisCand, mortisSource]

lemma rec_witness_eval :
    getVideoRecommendations [mortisSource, mortisCand] "srcVid" 6 none =
      Except.ok recWitnessList := by
  have h1 : getVideoByYoutubeId [mortisSource, mortisCand] "srcVid" = some mortisSource := by
    decide
  have h2 : [mortisSource, mortisCand].filter (fun v => v.youtubeId != "srcVid") =
      [mortisCand] := by decide
  rw [getVideoRecommendations, h1]
  simp only [h2, List.map_cons, List.map_nil, similarity_mortis_value, finalScore_mortis_value]
  rfl

/-- Witness for C2 on a concrete two-record store whose only candidate
is the boundary-case candidate. -/
theorem recommendations_ranked_witness :
    (∀ s ∈ recWitnessList, s.finalScore =
        s.similarityScore + 5 * s.video.popularity + 3 * s.video.recency)
    ∧ recWitnessList.Sorted recRel
    ∧ recWitnessList.length =
        min 6 (([mortisSource, mortisCand].filter (fun v => v.youtubeId != "srcVid")).length) :=
  recommendations_ranked [mortisSource, mortisCand] "srcVid" 6 none recWitnessList
    rec_witness_eval

/-- C10: when the source id is present in the store the recommendation
pipeline succeeds and never returns the source video itself, and when
the source id is absent it fails with an error instead of returning an
empty list. -/
theorem recommendations_exclude_source (store : List VideoRecord) (youtubeId : String)
    (limit : Nat) (prefs : Option (List String)) :
    ((∃ v ∈ store, v.youtubeId = youtubeId) →
      ∃ l, getVideoRecommendations store youtubeId limit prefs = Except.ok l
        ∧ ∀ s ∈ l, s.video.youtubeId ≠ youtubeId)
    ∧ ((¬ ∃ v ∈ store, v.youtubeId = youtubeId) →
      getVideoRecommendations store youtubeId limit prefs =
        Except.error ("Video " ++ youtubeId ++ " not found")) := by
  constructor
  · rintro ⟨v, hv, hid⟩
    cases hf : getVideoByYoutubeId store youtubeId with
    | none =>
        have := List.find?_eq_none.mp hf v hv
        simp [hid] at this
    | some source =>
        refine ⟨_, by rw [getVideoRecommendations, hf], ?_⟩
        intro s hs
        have hmem := mem_of_mem_take_insertionSort recRel hs
        rcases List.mem_map.mp hmem with ⟨w, hw, rfl⟩
        have := (List.mem_filter.mp hw).2
        simpa using this
  · intro hno
    cases hf : getVideoByYoutubeId store youtubeId with
    | none => rw [getVideoRecommendations, hf]
    | some source =>
        exfalso
        have hmem := List.mem_of_find?_eq_some hf
        have hp := List.find?_some hf
        exact hno ⟨source, hmem, by simpa using hp⟩

/-- Witness for C10: on the concrete store the present id yields a
recommendation list free of the source, and an absent id yields the
not-found error. -/
theorem recommendations_exclude_source_witness :
    (∃ l, getVideoRecommendations [mortisSource, mortisCand] "srcVid" 6 none = Except.ok l
      ∧ ∀ s ∈ l, s.video.youtubeId ≠ "srcVid")
    ∧ getVideoRecommendations [mortisSource, mortisCand] "nope" 6 none =
        Except.error ("Video " ++ "nope" ++ " not found") :=
  ⟨(recommendations_exclude_source [mortisSource, mortisCand] "srcVid" 6 none).1
      ⟨mortisSource, by decide, by decide⟩,
   (recommendations_exclude_source [mortisSource, mortisCand] "nope" 6 none).2
      (by decide)⟩

/-- A sort specification handed to the store: either the text-match
score projection of the text search, or a list of fields each with a
direction (-1 for descending). -/
inductive SortOptions where
  | textScore : SortOptions
  | byFields : List (String × Int) → SortOptions
deriving Repr, DecidableEq

/-- The sort selection switch of searchVideos.  A JavaScript switch is a
sequence of equality tests with a default branch, modelled as an
if-chain.  The relevance case uses the text-match score only when the
free-text query is truthy and non-blank, falling back to descending
popularity otherwise; the default branch also sorts by descending
popularity. -/
def sortOptionsFor (sortBy query : String) : SortOptions :=
  if sortBy = "relevance" then
    if query ≠ "" ∧ query.trim ≠ "" then SortOptions.textScore
    else SortOptions.byFields [("popularity", -1)]
  else if sortBy = "recent" then SortOptions.byFields [("publishedAt", -1)]
  else if sortBy = "popular" then SortOptions.byFields [("viewCount", -1)]
  else if sortBy = "trending" then SortOptions.byFields [("recency", -1), ("popularity", -1)]
  else SortOptions.byFields [("popularity", -1)]

/-- C3 counterexample: the unrecognized sortBy value "banana" is not
treated identically to "popular": it sorts by descending popularity
score while "popular" sorts by descending view count. -/
theorem sort_banana_counterexample :
    sortOptionsFor "banana" "" = SortOptions.byFields [("popularity", -1)]
    ∧ sortOptionsFor "popular" "" = SortOptions.byFields [("viewCount", -1)]
    ∧ sortOptionsFor "banana" "" ≠ sortOptionsFor "popular" "" := by
  refine ⟨by decide, by decide, by decide⟩

/-- C3 (amended): the sort specification is selected only by sortBy:
relevance sorts by descending text-match score when the free-text query
is non-blank and falls back to descending popularity when it is blank;
recent sorts by descending publish timestamp; popular by descending view
count; trending by descending recency with ties broken by descending
popularity; and every unrecognized sortBy value sorts by descending
popularity score, the same as relevance with an empty query, not by
view count. -/
theorem sort_selection (sortBy query : String) :
    (query ≠ "" ∧ query.trim ≠ "" →
      sortOptionsFor "relevance" query = SortOptions.textScore)
    ∧ (¬(query ≠ "" ∧ query.trim ≠ "") →
      sortOptionsFor "relevance" query = SortOptions.byFields [("popularity", -1)])
    ∧ sortOptionsFor "recent" query = SortOptions.byFields [("publishedAt", -1)]
    ∧ sortOptionsFor "popular" query = SortOptions.byFields [("viewCount", -1)]
    ∧ sortOptionsFor "trending" query =
        SortOptions.byFields [("recency", -1), ("popularity", -1)]
    ∧ (sortBy ≠ "relevance" → sortBy ≠ "recent" → sortBy ≠ "popular" → sortBy ≠ "trending" →
        sortOptionsFor sortBy query = SortOptions.byFields [("popularity", -1)]) := by
  refine ⟨?_, ?_, by simp [sortOptionsFor], by simp [sortOptionsFor],
      by simp [sortOptionsFor], ?_⟩
  · intro h
    simp [sortOptionsFor, h]
  · intro h
    simp [sortOptionsFor, if_neg h]
  · intro h1 h2 h3 h4
    simp [sortOptionsFor, h1, h2, h3, h4]

/-- Witness for C3 (amended): an empty query makes relevance fall back
to descending popularity, and the unrecognized value "banana" also
selects descending popularity. -/
theorem sort_selection_witness :
    (¬(("" : String) ≠ "" ∧ ("" : String).trim ≠ ""))
    ∧ sortOptionsFor "relevance" "" = SortOptions.byFields [("popularity", -1)]
    ∧ sortOptionsFor "banana" "" = SortOptions.byFields [("popularity", -1)] :=
  ⟨by simp,
   (sort_selection "banana" "").2.1 (by simp),
   (sort_selection "banana" "").2.2.2.2.2
     (by decide) (by decide) (by decide) (by decide)⟩

/-- The offset handed to the skip stage of the store cursor:
(page - 1) times the page size, on JavaScript numbers. -/
def searchOffset (page pageSize : ℤ) : ℤ := (page - 1) * pageSize

/-- The pages field of the pagination metadata: the ceiling of the total
match count divided by the page size. -/
def totalPages (total : ℕ) (pageSize : ℤ) : ℤ := ⌈(total : ℚ) / (pageSize : ℚ)⌉

/-- The skip-and-limit slice the store applies to the matched, sorted
records.  The store rejects a negative skip value with an error, which
the slice models as none. -/
def pageSlice (ms : List VideoRecord) (offset pageSize : ℤ) :
    Option (List VideoRecord) :=
  if offset < 0 then none
  else some ((ms.drop offset.toNat).take pageSize.toNat)

/-- C4: for page and pageSize at least 1 the offset is
(page - 1) * pageSize, totalPages is the ceiling of totalMatches over
pageSize and is 0 when totalMatches is 0 (and 3 when totalMatches is 25
with pageSize 10), the slice never errors, and an offset at or past a
positive totalMatches yields an empty slice while totalPages keeps its
true value. -/
theorem pagination_bounds (ms : List VideoRecord) (page pageSize : ℤ)
    (hp : 1 ≤ page) (hs : 1 ≤ pageSize) :
    searchOffset page pageSize = (page - 1) * pageSize
    ∧ totalPages 0 pageSize = 0
    ∧ totalPages 25 10 = 3
    ∧ (∃ l, pageSlice ms (searchOffset page pageSize) pageSize = some l)
    ∧ ((ms.length : ℤ) ≤ searchOffset page pageSize → 0 < ms.length →
        pageSlice ms (searchOffset page pageSize) pageSize = some []) := by
  have hoff : 0 ≤ searchOffset page pageSize :=
    mul_nonneg (by linarith) (by linarith)
  refine ⟨rfl, by simp [totalPages], ?_, ?_, ?_⟩
  · rw [totalPages, Int.ceil_eq_iff]
    norm_num
  · exact ⟨_, by rw [pageSlice, if_neg (not_lt.mpr hoff)]⟩
  · intro hle _
    rw [pageSlice, if_neg (not_lt.mpr hoff)]
    have hdrop : ms.drop (searchOffset page pageSize).toNat = [] := by
      apply List.drop_eq_nil_of_le
      exact (Int.le_toNat hoff).mpr hle
    rw [hdrop, List.take_nil]

/-- Witness for C4 at totalMatches 25, pageSize 10, page 4: three total
pages and an empty slice without an error. -/
theorem pagination_bounds_witness :
    (1 : ℤ) ≤ 4 ∧ (1 : ℤ) ≤ 10
    ∧ totalPages 25 10 = 3
    ∧ pageSlice (List.replicate 25 mortisSource) (searchOffset 4 10) 10 = some [] :=
  ⟨by decide, by decide,
   (pagination_bounds (List.replicate 25 mortisSource) 4 10 (by decide) (by decide)).2.2.1,
   (pagination_bounds (List.replicate 25 mortisSource) 4 10 (by decide) (by decide)).2.2.2.2
     (by simp [searchOffset]) (by simp)⟩

/-- The destructuring default for the page parameter of searchVideos:
1 when the parameter is absent, the supplied value otherwise. -/
def effectivePage (page : Option ℤ) : ℤ := page.getD 1

/-- The destructuring default for the limit parameter of searchVideos:
20 when the parameter is absent, the supplied value otherwise. -/
def effectiveLimit (limit : Option ℤ) : ℤ := limit.getD 20

/-- C5 counterexample: a supplied page of 0 is not clamped to 1: the
effective page stays 0, the offset handed to the store is -20, and the
store rejects the negative skip instead of proceeding on corrected
values. -/
theorem page_clamping_counterexample :
    effectivePage (some 0) = 0
    ∧ effectivePage (some 0) ≠ 1
    ∧ searchOffset (effectivePage (some 0)) (effectiveLimit none) = -20
    ∧ pageSlice [] (searchOffset (effectivePage (some 0)) (effectiveLimit none))
        (effectiveLimit none) = none := by
  refine ⟨rfl, by decide, by decide, by decide⟩

/-- C5 (amended): searchVideos substitutes the defaults page 1 and
pageSize 20 only when the parameters are absent; a supplied
non-positive page or pageSize is used unchanged, so a page at most 0
with a positive pageSize produces a negative offset that the store
rejects, rather than being clamped. -/
theorem page_defaults (p l : ℤ) (hp : p ≤ 0) (hl : 0 < l) :
    effectivePage none = 1 ∧ effectiveLimit none = 20
    ∧ effectivePage (some p) = p ∧ effectiveLimit (some l) = l
    ∧ searchOffset (effectivePage (some p)) (effectiveLimit (some l)) < 0
    ∧ ∀ ms,
        pageSlice ms (searchOffset (effectivePage (some p)) (effectiveLimit (some l)))
          l = none := by
  have h1 : effectivePage (some p) - 1 < 0 := by
    simp only [effectivePage, Option.getD_some]
    linarith
  have h2 : (0 : ℤ) < effectiveLimit (some l) := by
    simpa only [effectiveLimit, Option.getD_some] using hl
  have hneg : searchOffset (effectivePage (some p)) (effectiveLimit (some l)) < 0 :=
    mul_neg_of_neg_of_pos h1 h2
  exact ⟨rfl, rfl, rfl, rfl, hneg, fun ms => by rw [pageSlice, if_pos hneg]⟩

/-- Witness for C5 (amended) at supplied page 0 and pageSize 20. -/
theorem page_defaults_witness :
    (0 : ℤ) ≤ 0 ∧ (0 : ℤ) < 20
    ∧ (effectivePage none = 1 ∧ effectiveLimit none = 20
        ∧ effectivePage (some 0) = 0 ∧ effectiveLimit (some 20) = 20
        ∧ searchOffset (effectivePage (some 0)) (effectiveLimit (some 20)) < 0
        ∧ ∀ ms,
            pageSlice ms
              (searchOffset (effectivePage (some 0)) (effectiveLimit (some 20))) 20 = none) :=
  ⟨by decide, by decide, page_defaults 0 20 (by decide) (by decide)⟩

/-- The parameter object of searchVideos, with the destructuring
defaults of the source. -/
structure SearchParams where
  query : String := ""
  brawlers : List String := []
  gameModes : List String := []
  contentType : List String := []
  skillLevel : String := ""
  sortBy : String := "relevance"
  limit : Option ℤ := none
  page : Option ℤ := none
  minViews : ℕ := 0
  maxDuration : ℕ := 0
  dateFrom : String := ""
  dateTo : String := ""
  channelId : String := ""
deriving Repr, DecidableEq

/-- The array membership constraint the query builder emits for the
brawlers, gameModes and contentType fields: added only for a non-empty
filter list, matched when the record array contains any filter value. -/
def inConstraint (filterVals fieldVals : List String) : Bool :=
  if filterVals.isEmpty then true
  else filterVals.any (fun x => decide (x ∈ fieldVals))

/-- The match predicate built by searchVideos.  The free-text clause is
delegated to the native text search of the store, supplied here as the
textMatch argument; every other clause is added only when its filter
field is present, exactly as the query object is assembled. -/
def matchesFilter (p : SearchParams) (textMatch : VideoRecord → Bool)
    (v : VideoRecord) : Bool :=
  (if p.query ≠ "" ∧ p.query.trim ≠ "" then textMatch v else true)
    && inConstraint p.brawlers v.brawlers
    && inConstraint p.gameModes v.gameModes
    && inConstraint p.contentType v.contentType
    && (if p.skillLevel ≠ "" then v.skillLevel == p.skillLevel else true)
    && (if p.channelId ≠ "" then v.creator.id == p.channelId else true)
    && (if p.minViews > 0 then decide (p.minViews ≤ v.viewCount) else true)
    && (if p.maxDuration > 0 then decide (v.duration ≤ p.maxDuration) else true)
    && (if p.dateFrom ≠ "" ∨ p.dateTo ≠ "" then
          (if p.dateFrom ≠ "" then decide (p.dateFrom ≤ v.publishedAt) else true)
            && (if p.dateTo ≠ "" then decide (v.publishedAt ≤ p.dateTo) else true)
        else true)

/-- C6: a filter with empty free text, empty brawler, game-mode and
content-type sets, empty skill level, zero numeric bounds, no date
bounds and no creator id imposes no constraint: the built predicate
matches every record, whatever the text-search capability would say. -/
theorem empty_filter_matches_all (p : SearchParams) (textMatch : VideoRecord → Bool)
    (v : VideoRecord)
    (hq : p.query = "") (hb : p.brawlers = []) (hg : p.gameModes = [])
    (hc : p.contentType = []) (hs : p.skillLevel = "") (hch : p.channelId = "")
    (hv : p.minViews = 0) (hd : p.maxDuration = 0)
    (hdf : p.dateFrom = "") (hdt : p.dateTo = "") :
    matchesFilter p textMatch v = true := by
  simp [matchesFilter, inConstraint, hq, hb, hg, hc, hs, hch, hv, hd, hdf, hdt]

/-- Witness for C6 at the all-default parameter object and a text-search
capability that matches nothing. -/
theorem empty_filter_matches_all_witness :
    matchesFilter {} (fun _ => false) mortisSource = true :=
  empty_filter_matches_all {} (fun _ => false) mortisSource
    rfl rfl rfl rfl rfl rfl rfl rfl rfl rfl

/-- C7: for a non-empty filter list the emitted array constraint holds
exactly when the record set and the filter set intersect; an empty
filter list imposes no constraint.  The brawlers, gameModes and
contentType clauses of the built predicate all share this constraint. -/
theorem in_constraint_iff (B rec : List String) (hB : B ≠ []) :
    (inConstraint B rec = true ↔ (rec.toFinset ∩ B.toFinset).Nonempty)
    ∧ inConstraint [] rec = true
    ∧ inConstraint ["Shelly", "Colt"] ["Shelly"] = true
    ∧ inConstraint ["Mortis"] ["Shelly"] = false := by
  refine ⟨?_, rfl, by decide, by decide⟩
  rw [inConstraint, if_neg (by simpa [List.isEmpty_iff] using hB)]
  simp only [List.any_eq_true, decide_eq_true_eq,
    Finset.Nonempty, Finset.mem_inter, List.mem_toFinset]
  constructor
  · rintro ⟨x, hx1, hx2⟩
    exact ⟨x, hx2, hx1⟩
  · rintro ⟨x, hx1, hx2⟩
    exact ⟨x, hx2, hx1⟩

/-- Witness for C7 at the spec examples: a record with the single
brawler Shelly against the filters Shelly-or-Colt and Mortis. -/
theorem in_constraint_iff_witness :
    (["Shelly", "Colt"] ≠ ([] : List String))
    ∧ (inConstraint ["Shelly", "Colt"] ["Shelly"] = true ↔
        ((["Shelly"] : List String).toFinset ∩
          (["Shelly", "Colt"] : List String).toFinset).Nonempty)
    ∧ inConstraint [] ["Shelly"] = true
    ∧ inConstraint ["Shelly", "Colt"] ["Shelly"] = true
    ∧ inConstraint ["Mortis"] ["Shelly"] = false :=
  ⟨by decide, in_constraint_iff ["Shelly", "Colt"] ["Shelly"] (by decide)⟩

/-- The score the trending-brawlers pipeline adds to each group: the
video count weighted by 1 plus the base-ten logarithm of the summed
views plus one, weighted by 2. -/
noncomputable def trendScore (count totalViews : ℕ) : ℝ :=
  (count : ℝ) * 1 + Real.logb 10 ((totalViews : ℝ) + 1) * 2

/-- One entry of the trending-brawlers result: the group key, its video
count, its summed views and the weighted score. -/
structure TrendingEntry where
  brawler : String
  count : ℕ
  totalViews : ℕ
  score : ℝ

/-- The order of the trending sort stage: descending score. -/
def trendRel (a b : TrendingEntry) : Prop := b.score ≤ a.score

noncomputable instance : DecidableRel trendRel := fun _ _ => Classical.dec _

instance : IsTrans TrendingEntry trendRel where
  trans _a _b _c h1 h2 := le_trans h2 h1

instance : IsTotal TrendingEntry trendRel where
  total a b := le_total b.score a.score

/-- The unwind stage applied to the date-matched videos: one document
per brawler occurrence, carrying the view count of its video. -/
def matchedBrawlerDocs (videos : List VideoRecord) (startDate : String) :
    List (String × ℕ) :=
  (videos.filter (fun v => decide (startDate ≤ v.publishedAt))).flatMap
    (fun v => v.brawlers.map (fun b => (b, v.viewCount)))

/-- The count accumulator of the group stage for one key. -/
def countOf (docs : List (String × ℕ)) (b : String) : ℕ :=
  (docs.filter (fun d => d.1 == b)).length

/-- The totalViews accumulator of the group stage for one key. -/
def viewsOf (docs : List (String × ℕ)) (b : String) : ℕ :=
  ((docs.filter (fun d => d.1 == b)).map Prod.snd).sum

/-- The trending-brawlers pipeline: match the window, unwind brawlers,
group with count and summed views, add the weighted score, sort by
descending score and truncate to the limit. -/
noncomputable def getTrendingBrawlers (videos : List VideoRecord) (startDate : String)
    (limit : ℕ) : List TrendingEntry :=
  let docs := matchedBrawlerDocs videos startDate
  let entries := (docs.map Prod.fst).dedup.map
    (fun b => { brawler := b, count := countOf docs b, totalViews := viewsOf docs b,
                score := trendScore (countOf docs b) (viewsOf docs b) : TrendingEntry })
  (List.insertionSort trendRel entries).take limit

/-- One row of the SEARCH_HISTORY collection. -/
structure SearchHistoryRow where
  query : String
  timestamp : String
deriving Repr, DecidableEq

/-- One entry of the popular-search-queries result: the query string and
its occurrence count, with no view term. -/
structure QueryCount where
  query : String
  count : ℕ
deriving Repr, DecidableEq

/-- The order of the popular-queries sort stage: descending count. -/
def queryRel (a b : QueryCount) : Prop := b.count ≤ a.count

instance : DecidableRel queryRel := fun a b =>
  inferInstanceAs (Decidable (b.count ≤ a.count))

instance : IsTrans QueryCount queryRel where
  trans _a _b _c h1 h2 := le_trans h2 h1

instance : IsTotal QueryCount queryRel where
  total a b := le_total b.count a.count

/-- The popular-search-queries pipeline: match the window, group by the
query string with a count, sort by descending count, then skip and
limit per the requested page. -/
def getPopularSearchQueries (rows : List SearchHistoryRow) (startDate : String)
    (limit page : ℕ) : List QueryCount :=
  let matched := rows.filter (fun r => decide (startDate ≤ r.timestamp))
  let entries := (matched.map (fun r => r.query)).dedup.map
    (fun q => { query := q,
                count := (matched.filter (fun r => r.query == q)).length : QueryCount })
  ((List.insertionSort queryRel entries).drop ((page - 1) * limit)).take limit

/-- C8: every trending entry scores count plus twice the base-ten
logarithm of totalViews plus one, and the entries come back sorted in
descending score order and truncated to the limit; the search-query
popularity variant scores by count alone, also sorted descending and
truncated to the limit. -/
theorem trending_scores (videos : List VideoRecord) (rows : List SearchHistoryRow)
    (startDate : String) (limit page : ℕ) :
    (∀ e ∈ getTrendingBrawlers videos startDate limit,
        e.score = (e.count : ℝ) + 2 * Real.logb 10 ((e.totalViews : ℝ) + 1))
    ∧ (getTrendingBrawlers videos startDate limit).Sorted trendRel
    ∧ (getTrendingBrawlers videos startDate limit).length ≤ limit
    ∧ (getPopularSearchQueries rows startDate limit page).Sorted queryRel
    ∧ (getPopularSearchQueries rows startDate limit page).length ≤ limit := by
  refine ⟨?_, ?_, ?_, ?_, ?_⟩
  · intro e he
    have hmem := mem_of_mem_take_insertionSort trendRel he
    rcases List.mem_map.mp hmem with ⟨b, _, rfl⟩
    simp only [trendScore]
    ring
  · exact ((List.sorted_insertionSort trendRel _).sublist (List.take_sublist _ _))
  · exact List.length_take_le _ _
  · exact ((List.sorted_insertionSort queryRel _).sublist
      ((List.take_sublist _ _).trans (List.drop_sublist _ _)))
  · exact List.length_take_le _ _

/-- C9: the trending score is monotone: for a fixed count, more total
views never decrease the score, and for fixed total views, a strictly
larger count strictly increases the score. -/
theorem trend_score_monotone (c c1 c2 v v1 v2 : ℕ) (hv : v1 ≤ v2) (hc : c1 < c2) :
    trendScore c v1 ≤ trendScore c v2 ∧ trendScore c1 v < trendScore c2 v := by
  constructor
  · have hlog : Real.logb 10 ((v1 : ℝ) + 1) ≤ Real.logb 10 ((v2 : ℝ) + 1) := by
      apply Real.logb_le_logb_of_le (by norm_num)
      · positivity
      · have : (v1 : ℝ) ≤ (v2 : ℝ) := Nat.cast_le.mpr hv
        linarith
    simp only [trendScore]
    linarith
  · have hcount : (c1 : ℝ) < (c2 : ℝ) := Nat.cast_lt.mpr hc
    simp only [trendScore]
    linarith

/-- Witness for C9 at count 1 with views growing from 0 to 9, and views
0 with count growing from 1 to 2. -/
theorem trend_score_monotone_witness :
    ((0 : ℕ) ≤ 9 ∧ (1 : ℕ) < 2)
    ∧ (trendScore 1 0 ≤ trendScore 1 9 ∧ trendScore 1 0 < trendScore 2 0) :=
  ⟨⟨by decide, by decide⟩, trend_score_monotone 1 1 2 0 0 9 (by decide) (by decide)⟩

end Brawlfind
